import Mathlib

/-!
Verification of the transcript extractor
(`src/extension/transcript-extractor.js`).

The DOM is embedded as a tree of element and text nodes.  The three
selectors used by the source (`div[data-testid="transcript-body"]`,
`button`, `p.<class>`) are modelled as boolean predicates on element
nodes, and `querySelector` / `querySelectorAll` as pre-order searches
over descendants, which is document order.  Effectful methods
(`copyToClipboard`, `downloadTranscript`) return explicit traces of the
side effects they perform; `console.warn` diagnostics are returned as a
list of strings.  The clipboard platform is a parameter `writeFails`
saying which payloads the platform rejects; a rejected write models the
`navigator.clipboard.writeText` promise failing, which the source
catches.
-/

/-- A DOM node: either a text node or an element with a tag name, an
optional `data-testid` attribute, a class list and children. -/
inductive Node where
  | txt (s : String) : Node
  | elem (tag : String) (testid : Option String) (classes : List String)
      (children : List Node) : Node
deriving Repr

mutual

/-- The `textContent` of a node: concatenation of all descendant text
nodes in document order. -/
def textContent : Node → String
  | .txt s => s
  | .elem _ _ _ cs => textContentList cs

/-- The concatenated `textContent` of a list of nodes. -/
def textContentList : List Node → String
  | [] => ""
  | n :: ns => textContent n ++ textContentList ns

end

mutual

/-- All nodes of a tree in pre-order (document order), the root first. -/
def preorder : Node → List Node
  | .txt s => [.txt s]
  | .elem t i c cs => .elem t i c cs :: preorderList cs

/-- Pre-order traversal of a forest, left to right. -/
def preorderList : List Node → List Node
  | [] => []
  | n :: ns => preorder n ++ preorderList ns

end

/-- The children of a node (empty for text nodes). -/
def Node.children : Node → List Node
  | .txt _ => []
  | .elem _ _ _ cs => cs

/-- `element.querySelectorAll`: all proper descendants matching `p`,
in document order. -/
def querySelectorAll (p : Node → Bool) (n : Node) : List Node :=
  (preorderList n.children).filter p

/-- `element.querySelector`: the first proper descendant matching `p`
in document order, if any. -/
def querySelector (p : Node → Bool) (n : Node) : Option Node :=
  (querySelectorAll p n).head?

/-- `document.querySelector`: the first node of the whole document
matching `p` in document order, if any. -/
def docQuerySelector (p : Node → Bool) (doc : Node) : Option Node :=
  ((preorder doc).filter p).head?

/-- The `timestampClass` constant of the source:
`MuiTypography-uiBodySmall`. -/
def timestampClass : String := "MuiTypography-uiBodySmall"

/-- The `contentClass` constant of the source: `MuiTypography-uiBody`. -/
def contentClass : String := "MuiTypography-uiBody"

/-- The selector `div[data-testid="transcript-body"]` as a predicate. -/
def isTranscriptBody : Node → Bool
  | .txt _ => false
  | .elem tag testid _ _ => tag == "div" && testid == some "transcript-body"

/-- The selector `button` as a predicate. -/
def isButton : Node → Bool
  | .txt _ => false
  | .elem tag _ _ _ => tag == "button"

/-- The selector `p.<cls>` as a predicate: a `p` element whose class
list contains the token `cls`. -/
def isPWithClass (cls : String) : Node → Bool
  | .txt _ => false
  | .elem tag _ classes _ => tag == "p" && classes.contains cls

/-- JavaScript `String.prototype.trim` on a character list: strip
leading and trailing whitespace. -/
def trimChars (cs : List Char) : List Char :=
  ((cs.dropWhile Char.isWhitespace).reverse.dropWhile Char.isWhitespace).reverse

/-- JavaScript `String.prototype.trim`. -/
def trimStr (s : String) : String :=
  ⟨trimChars s.data⟩

/-- One transcript entry: `{ timestamp, content }`. -/
structure Entry where
  timestamp : String
  content : String
deriving Repr, DecidableEq

/-- The body of the `buttons.forEach` loop: a button contributes an
entry exactly when it has both a `p.timestampClass` and a
`p.contentClass` descendant; the entry holds their trimmed text. -/
def extractEntry (button : Node) : Option Entry :=
  match querySelector (isPWithClass timestampClass) button,
        querySelector (isPWithClass contentClass) button with
  | some t, some c => some ⟨trimStr (textContent t), trimStr (textContent c)⟩
  | _, _ => none

/-- `extractTranscript()`, together with the `console.warn` diagnostics
it emits.  When the container selector matches nothing the source warns
and returns `[]`; otherwise it folds `extractEntry` over the container's
buttons in document order. -/
def extractTranscriptRun (doc : Node) : List Entry × List String :=
  match docQuerySelector isTranscriptBody doc with
  | none => ([], ["Transcript body not found on this page"])
  | some transcriptBody =>
      ((querySelectorAll isButton transcriptBody).filterMap extractEntry, [])

/-- `extractTranscript()`: the entries it returns. -/
def extractTranscript (doc : Node) : List Entry :=
  (extractTranscriptRun doc).1

/-- `extractContentOnly()`: `extractTranscript().map(entry => entry.content)`. -/
def extractContentOnly (doc : Node) : List String :=
  (extractTranscript doc).map fun entry => entry.content

/-- JavaScript `Array.prototype.join`: elements interleaved with the
separator; the empty list joins to the empty string. -/
def joinSep (sep : String) : List String → String
  | [] => ""
  | [a] => a
  | a :: b :: rest => a ++ sep ++ joinSep sep (b :: rest)

/-- `extractContentAsText(separator)`:
`extractContentOnly().join(separator)`. -/
def extractContentAsText (doc : Node) (separator : String) : String :=
  joinSep separator (extractContentOnly doc)

/-- `extractContentAsText()` with its default separator, a single
space. -/
def extractContentAsTextDefault (doc : Node) : String :=
  extractContentAsText doc " "

/-- The `textToCopy` / `content` string built by both `copyToClipboard`
and `downloadTranscript`: entries joined by the separator, each entry
optionally rendered as `"<timestamp>: <content>"`. -/
def buildText (doc : Node) (includeTimestamps : Bool) (separator : String) :
    String :=
  if includeTimestamps then
    joinSep separator
      ((extractTranscript doc).map fun entry =>
        entry.timestamp ++ ": " ++ entry.content)
  else
    joinSep separator ((extractTranscript doc).map fun entry => entry.content)

/-- Observable behaviour of one `copyToClipboard` call: the returned
boolean, the payloads passed to `navigator.clipboard.writeText` (in
order), and the final clipboard content when a write succeeded. -/
structure ClipboardTrace where
  result : Bool
  attempted : List String
  clipboard : Option String
deriving Repr, DecidableEq

/-- `copyToClipboard(includeTimestamps, separator)`.  `writeFails` is
the platform: `writeFails s = true` means `writeText(s)` rejects, which
the source catches in its `try`/`catch` and turns into `false`. -/
def copyToClipboard (doc : Node) (writeFails : String → Bool)
    (includeTimestamps : Bool) (separator : String) : ClipboardTrace :=
  let entries := extractTranscript doc
  if entries.length = 0 then
    ⟨false, [], none⟩
  else
    let textToCopy := buildText doc includeTimestamps separator
    if writeFails textToCopy then
      ⟨false, [textToCopy], none⟩
    else
      ⟨true, [textToCopy], some textToCopy⟩

/-- `copyToClipboard()` with both arguments left to their defaults:
`includeTimestamps = false` and `separator = "\n\n"`. -/
def copyToClipboardDefault (doc : Node) (writeFails : String → Bool) :
    ClipboardTrace :=
  copyToClipboard doc writeFails false "\n\n"

/-- Observable behaviour of one `downloadTranscript` call: the file-save
side effect (anchor download name and blob content) if one happened, the
number of anchor clicks triggered, and the diagnostics emitted. -/
structure DownloadTrace where
  saved : Option (String × String)
  clicks : Nat
  warnings : List String
deriving Repr, DecidableEq

/-- `downloadTranscript(filename, includeTimestamps, separator)`.  With
zero entries it warns and returns; otherwise it builds the text, creates
a blob and an anchor named `filename`, and clicks it once. -/
def downloadTranscript (doc : Node) (filename : String)
    (includeTimestamps : Bool) (separator : String) : DownloadTrace :=
  let entries := extractTranscript doc
  if entries.length = 0 then
    ⟨none, 0, ["No transcript content found"]⟩
  else
    ⟨some (filename, buildText doc includeTimestamps separator), 1, []⟩

/-- `downloadTranscript()` with all arguments left to their defaults:
`filename = "transcript.txt"`, `includeTimestamps = false`,
`separator = "\n\n"`. -/
def downloadTranscriptDefault (doc : Node) : DownloadTrace :=
  downloadTranscript doc "transcript.txt" false "\n\n"

/-- JavaScript `s.split(/\s+/)` on a list of characters: split at every
maximal run of whitespace characters, keeping the (possibly empty)
pieces between runs.  In particular the empty string splits into one
empty piece. -/
def wsSplit : List Char → List (List Char)
  | [] => [[]]
  | c :: cs =>
    if c.isWhitespace then
      match cs with
      | [] => [[], []]
      | d :: ds =>
        if d.isWhitespace then wsSplit (d :: ds) else [] :: wsSplit (d :: ds)
    else
      match wsSplit cs with
      | [] => [[c]]
      | piece :: pieces => (c :: piece) :: pieces

/-- The summary object returned by `getSummary()`. -/
structure Summary where
  totalEntries : Nat
  totalCharacters : Nat
  totalWords : Nat
  duration : String
  firstTimestamp : Option String
  lastTimestamp : Option String
deriving Repr, DecidableEq

/-- `getSummary()`: counts over `extractContentAsText()` (default
separator), plus first/last timestamps; `duration` is the last entry's
timestamp string, with the placeholder `"00:00:00"` when empty. -/
def getSummary (doc : Node) : Summary :=
  let entries := extractTranscript doc
  let content := extractContentAsTextDefault doc
  { totalEntries := entries.length
  , totalCharacters := content.length
  , totalWords := (wsSplit content.data).length
  , duration :=
      if entries.length > 0 then
        ((entries.getLast?).getD ⟨"", ""⟩).timestamp
      else "00:00:00"
  , firstTimestamp :=
      if entries.length > 0 then
        some ((entries.head?).getD ⟨"", ""⟩).timestamp
      else none
  , lastTimestamp :=
      if entries.length > 0 then
        some ((entries.getLast?).getD ⟨"", ""⟩).timestamp
      else none }

/-- A candidate button is well-formed when it has both a
timestamp-marked and a content-marked descendant. -/
def wellFormed (b : Node) : Bool :=
  (querySelector (isPWithClass timestampClass) b).isSome &&
  (querySelector (isPWithClass contentClass) b).isSome

/-- The entry contributed by a well-formed candidate: the trimmed text
of its first timestamp-marked and first content-marked descendants. -/
def entryOf (b : Node) : Entry :=
  ⟨((querySelector (isPWithClass timestampClass) b).map
      fun e => trimStr (textContent e)).getD ""
  , ((querySelector (isPWithClass contentClass) b).map
      fun e => trimStr (textContent e)).getD ""⟩

/-- Fixture: a `p.MuiTypography-uiBodySmall` timestamp element. -/
def tsP (s : String) : Node :=
  .elem "p" none [timestampClass] [.txt s]

/-- Fixture: a `p.MuiTypography-uiBody` content element. -/
def ctP (s : String) : Node :=
  .elem "p" none [contentClass] [.txt s]

/-- Fixture: a button wrapping the given children. -/
def btn (cs : List Node) : Node :=
  .elem "button" none [] cs

/-- Fixture: a transcript body with two well-formed candidates
(timestamps padded with whitespace to exercise trimming) and one
malformed candidate lacking a content element. -/
def bodyA : Node :=
  .elem "div" (some "transcript-body") []
    [btn [tsP " 00:00:01 ", ctP "Hello"],
     btn [tsP "00:00:03"],
     btn [tsP "00:00:05", ctP " world "]]

/-- Fixture: a document containing `bodyA`. -/
def docA : Node :=
  .elem "html" none [] [bodyA]

/-- Fixture: a document with no transcript-body container at all. -/
def docEmpty : Node :=
  .elem "html" none [] []

/-- Helper: the `forEach`-with-push loop over candidates equals mapping
`entryOf` over the well-formed candidates, in order. -/
theorem filterMap_extractEntry (l : List Node) :
    l.filterMap extractEntry = (l.filter wellFormed).map entryOf := by
  induction l with
  | nil => rfl
  | cons b bs ih =>
    cases ht : querySelector (isPWithClass timestampClass) b with
    | none =>
      have hw : wellFormed b = false := by simp [wellFormed, ht]
      simp [List.filterMap_cons, List.filter_cons, extractEntry, ht, hw, ih]
    | some t =>
      cases hc : querySelector (isPWithClass contentClass) b with
      | none =>
        have hw : wellFormed b = false := by simp [wellFormed, ht, hc]
        simp [List.filterMap_cons, List.filter_cons, extractEntry, ht, hc, hw, ih]
      | some c =>
        have hw : wellFormed b = true := by simp [wellFormed, ht, hc]
        simp [List.filterMap_cons, List.filter_cons, extractEntry, entryOf,
          ht, hc, hw, ih]

/-- C1: when the container is present, `extractTranscript()` returns
exactly the well-formed candidates' entries, in document order of the
candidates, each entry holding the trimmed text of the candidate's
timestamp-marked and content-marked descendants; malformed candidates
are silently dropped, so the result has exactly as many entries as
there are well-formed candidates. -/
theorem extractTranscript_wellFormed_entries (doc transcriptBody : Node)
    (h : docQuerySelector isTranscriptBody doc = some transcriptBody) :
    extractTranscript doc
      = ((querySelectorAll isButton transcriptBody).filter wellFormed).map entryOf
    ∧ (extractTranscript doc).length
      = ((querySelectorAll isButton transcriptBody).filter wellFormed).length := by
  have h1 : extractTranscript doc
      = (querySelectorAll isButton transcriptBody).filterMap extractEntry := by
    simp [extractTranscript, extractTranscriptRun, h]
  rw [h1, filterMap_extractEntry]
  exact ⟨rfl, List.length_map _ _⟩

/-- Witness for C1 on a fixture with two well-formed and one malformed
candidate. -/
theorem extractTranscript_wellFormed_entries_witness :
    extractTranscript docA
      = ((querySelectorAll isButton bodyA).filter wellFormed).map entryOf
    ∧ (extractTranscript docA).length = 2 := by
  have h := extractTranscript_wellFormed_entries docA bodyA rfl
  exact ⟨h.1, h.2.trans rfl⟩

/-- C2: `extractContentOnly()` is the pointwise projection of
`extractTranscript()` onto the content field, hence has the same length
and order. -/
theorem extractContentOnly_projection (doc : Node) :
    extractContentOnly doc
      = (extractTranscript doc).map (fun entry => entry.content)
    ∧ (extractContentOnly doc).length = (extractTranscript doc).length :=
  ⟨rfl, List.length_map _ _⟩

/-- C3: `extractContentAsText(sep)` joins `extractContentOnly()` with
`sep`; with zero entries the result is the empty string; the default
separator is a single space. -/
theorem extractContentAsText_join (doc : Node) (sep : String) :
    extractContentAsText doc sep = joinSep sep (extractContentOnly doc)
    ∧ (extractTranscript doc = [] → extractContentAsText doc sep = "")
    ∧ extractContentAsTextDefault doc = extractContentAsText doc " " := by
  refine ⟨rfl, ?_, rfl⟩
  intro h
  simp [extractContentAsText, extractContentOnly, h, joinSep]

/-- Witness for C3 on the containerless fixture. -/
theorem extractContentAsText_join_witness :
    extractContentAsText docEmpty "X" = joinSep "X" (extractContentOnly docEmpty)
    ∧ extractContentAsText docEmpty "X" = "" :=
  ⟨(extractContentAsText_join docEmpty "X").1,
   (extractContentAsText_join docEmpty "X").2.1 rfl⟩

/-- C4: with at least one entry, `copyToClipboard(false, sep)` passes
exactly `extractContentAsText(sep)` to the platform write, and when that
write succeeds the clipboard ends up holding exactly that string. -/
theorem copyToClipboard_roundtrip (doc : Node) (writeFails : String → Bool)
    (sep : String) (h : extractTranscript doc ≠ []) :
    (copyToClipboard doc writeFails false sep).attempted
      = [extractContentAsText doc sep]
    ∧ (writeFails (extractContentAsText doc sep) = false →
        (copyToClipboard doc writeFails false sep).clipboard
          = some (extractContentAsText doc sep)) := by
  have hlen : ¬ (extractTranscript doc).length = 0 := by simpa using h
  have hbuild : buildText doc false sep = extractContentAsText doc sep := rfl
  simp only [copyToClipboard, if_neg hlen, hbuild]
  cases hw : writeFails (extractContentAsText doc sep) <;> simp [hw]

/-- Witness for C4 on the two-entry fixture with a succeeding platform
write. -/
theorem copyToClipboard_roundtrip_witness :
    (copyToClipboard docA (fun _ => false) false " ").attempted
      = ["Hello world"]
    ∧ (copyToClipboard docA (fun _ => false) false " ").clipboard
      = some "Hello world" := by
  have h := copyToClipboard_roundtrip docA (fun _ => false) " " (by decide)
  exact ⟨h.1.trans rfl, (h.2 rfl).trans rfl⟩

/-- C5: `copyToClipboard` returns `false` with no write attempted when
there are zero entries; a platform write failure is caught and becomes
the result `false` (nothing lands on the clipboard); a successful write
yields `true`.  The function is total in this embedding: no failure
propagates to the caller. -/
theorem copyToClipboard_errorHandling (doc : Node) (writeFails : String → Bool)
    (its : Bool) (sep : String) :
    (extractTranscript doc = [] →
      copyToClipboard doc writeFails its sep = ⟨false, [], none⟩)
    ∧ (extractTranscript doc ≠ [] → writeFails (buildText doc its sep) = true →
        (copyToClipboard doc writeFails its sep).result = false
        ∧ (copyToClipboard doc writeFails its sep).clipboard = none)
    ∧ (extractTranscript doc ≠ [] → writeFails (buildText doc its sep) = false →
        (copyToClipboard doc writeFails its sep).result = true) := by
  refine ⟨?_, ?_, ?_⟩
  · intro h
    simp [copyToClipboard, h]
  · intro h hw
    have hlen : ¬ (extractTranscript doc).length = 0 := by simpa using h
    simp [copyToClipboard, if_neg hlen, hw, h]
  · intro h hw
    have hlen : ¬ (extractTranscript doc).length = 0 := by simpa using h
    simp [copyToClipboard, if_neg hlen, hw, h]

/-- Witness for C5: zero entries yield `false` with no attempt; a
rejected write at the two-entry fixture yields `false`; an accepted one
yields `true`. -/
theorem copyToClipboard_errorHandling_witness :
    copyToClipboard docEmpty (fun _ => false) false "\n\n" = ⟨false, [], none⟩
    ∧ (copyToClipboard docA (fun _ => true) false " ").result = false
    ∧ (copyToClipboard docA (fun _ => false) false " ").result = true := by
  refine ⟨(copyToClipboard_errorHandling docEmpty (fun _ => false) false "\n\n").1 rfl,
    ?_, ?_⟩
  · exact ((copyToClipboard_errorHandling docA (fun _ => true) false " ").2.1
      (by decide) rfl).1
  · exact (copyToClipboard_errorHandling docA (fun _ => false) false " ").2.2
      (by decide) rfl

/-- C6: with zero extracted entries, `getSummary()` returns zero entry
and character counts, a word count of one (splitting the empty string by
whitespace yields one empty token), the placeholder duration
`"00:00:00"`, and no first or last timestamp. -/
theorem getSummary_empty (doc : Node) (h : extractTranscript doc = []) :
    getSummary doc = ⟨0, 0, 1, "00:00:00", none, none⟩ := by
  have hc : extractContentAsTextDefault doc = "" := by
    simp [extractContentAsTextDefault, extractContentAsText, extractContentOnly,
      h, joinSep]
  simp [getSummary, h, hc, wsSplit]

/-- Witness for C6 on the containerless fixture. -/
theorem getSummary_empty_witness :
    getSummary docEmpty = ⟨0, 0, 1, "00:00:00", none, none⟩ :=
  getSummary_empty docEmpty rfl

/-- C7: with at least one entry, `getSummary().duration` is the last
entry's timestamp string (not an elapsed-time delta), and
`firstTimestamp` / `lastTimestamp` are the first and last entries'
timestamps. -/
theorem getSummary_timestamps (doc : Node) (h : extractTranscript doc ≠ []) :
    (getSummary doc).duration = ((extractTranscript doc).getLast h).timestamp
    ∧ (getSummary doc).firstTimestamp
      = some ((extractTranscript doc).head h).timestamp
    ∧ (getSummary doc).lastTimestamp
      = some ((extractTranscript doc).getLast h).timestamp := by
  have hlen : 0 < (extractTranscript doc).length := List.length_pos.mpr h
  have hlast : (extractTranscript doc).getLast? =
      some ((extractTranscript doc).getLast h) :=
    List.getLast?_eq_getLast _ h
  have hhead : (extractTranscript doc).head? =
      some ((extractTranscript doc).head h) :=
    List.head?_eq_head h
  simp [getSummary, hlast, hhead, hlen]

/-- Witness for C7 on the two-entry fixture. -/
theorem getSummary_timestamps_witness :
    (getSummary docA).duration = "00:00:05"
    ∧ (getSummary docA).firstTimestamp = some "00:00:01"
    ∧ (getSummary docA).lastTimestamp = some "00:00:05" := by
  have h := getSummary_timestamps docA (by decide)
  exact ⟨h.1.trans rfl, h.2.1.trans rfl, h.2.2.trans rfl⟩

/-- C8: when the container selector matches nothing,
`extractTranscript()` returns the empty sequence and emits exactly the
missing-container diagnostic; being a total function of the document,
it throws no exception. -/
theorem extractTranscript_missingContainer (doc : Node)
    (h : docQuerySelector isTranscriptBody doc = none) :
    extractTranscriptRun doc
      = ([], ["Transcript body not found on this page"]) := by
  simp [extractTranscriptRun, h]

/-- Witness for C8 on the containerless fixture. -/
theorem extractTranscript_missingContainer_witness :
    extractTranscriptRun docEmpty
      = ([], ["Transcript body not found on this page"]) :=
  extractTranscript_missingContainer docEmpty rfl

/-- C9: with zero extracted entries, `downloadTranscript` saves no file,
triggers no click, and emits only the no-content diagnostic. -/
theorem downloadTranscript_empty (doc : Node) (filename : String)
    (its : Bool) (sep : String) (h : extractTranscript doc = []) :
    downloadTranscript doc filename its sep
      = ⟨none, 0, ["No transcript content found"]⟩ := by
  simp [downloadTranscript, h]

/-- Witness for C9 on the containerless fixture with default-valued
arguments. -/
theorem downloadTranscript_empty_witness :
    downloadTranscript docEmpty "transcript.txt" false "\n\n"
      = ⟨none, 0, ["No transcript content found"]⟩ :=
  downloadTranscript_empty docEmpty "transcript.txt" false "\n\n" rfl

/-- Helper: the length of a join is the total element length plus the
separator length times the number of gaps. -/
theorem joinSep_length (sep : String) (l : List String) :
    (joinSep sep l).length
      = (l.map String.length).sum + sep.length * (l.length - 1) := by
  induction l with
  | nil => simp [joinSep]
  | cons a as ih =>
    cases as with
    | nil => simp [joinSep]
    | cons b bs =>
      simp only [joinSep, String.length_append, List.map_cons, List.sum_cons,
        List.length_cons, Nat.add_sub_cancel] at ih ⊢
      rw [ih]
      ring

/-- C10: `copyToClipboard` and `downloadTranscript` default their
separator to two newlines while `extractContentAsText` defaults to a
single space, so with at least two entries the string `copyToClipboard`
passes to the platform write under all-default arguments differs from
`extractContentAsText()` under all-default arguments. -/
theorem defaultSeparators_differ (doc : Node) (writeFails : String → Bool)
    (h : 2 ≤ (extractTranscript doc).length) :
    copyToClipboardDefault doc writeFails
      = copyToClipboard doc writeFails false "\n\n"
    ∧ downloadTranscriptDefault doc
      = downloadTranscript doc "transcript.txt" false "\n\n"
    ∧ extractContentAsTextDefault doc = extractContentAsText doc " "
    ∧ (copyToClipboardDefault doc writeFails).attempted
      = [joinSep "\n\n" (extractContentOnly doc)]
    ∧ joinSep "\n\n" (extractContentOnly doc) ≠ extractContentAsTextDefault doc := by
  have hlen : ¬ (extractTranscript doc).length = 0 := by omega
  have hbuild : buildText doc false "\n\n" = joinSep "\n\n" (extractContentOnly doc) := rfl
  refine ⟨rfl, rfl, rfl, ?_, ?_⟩
  · simp only [copyToClipboardDefault, copyToClipboard, if_neg hlen, hbuild]
    cases hw : writeFails (joinSep "\n\n" (extractContentOnly doc)) <;> simp [hw]
  · intro heq
    have h1 := congrArg String.length heq
    have hn : (extractContentOnly doc).length = (extractTranscript doc).length :=
      List.length_map _ _
    have h2 : ("\n\n" : String).length = 2 := rfl
    have h3 : (" " : String).length = 1 := rfl
    rw [extractContentAsTextDefault, extractContentAsText, joinSep_length,
      joinSep_length, h2, h3] at h1
    omega

/-- Witness for C10 on the two-entry fixture. -/
theorem defaultSeparators_differ_witness :
    (copyToClipboardDefault docA (fun _ => false)).attempted
      = ["Hello\n\nworld"]
    ∧ joinSep "\n\n" (extractContentOnly docA)
      ≠ extractContentAsTextDefault docA := by
  have h := defaultSeparators_differ docA (fun _ => false) (by decide)
  exact ⟨h.2.2.2.1.trans rfl, h.2.2.2.2⟩
